import Mathlib

/-!
# Vector Projector — session enforcement, admission gate and pricing catalog

Shallow embedding of the session-enforcement / account-provisioning core of
the Vector Projector repository, together with the pricing-catalog
synchronizer and checkout price resolution.

The embedding follows the current revisions of the source files:

* `convex/fs.ts` — `ensureAppUser` (session establishment, admission gate)
  and `validateSession` (with the UUID shape guard);
* `convex/crowdfundingBackers.ts` — the rate-limited `verifyBacker`
  snapshot (legacy, exact-match lookup, used for the rate-limit shape);
* `convex/schema.ts` — the record shapes of `users`, `crowdfunding_backers`,
  `app_state` and `pricing_catalog`;
* `convex/pricingCatalog.ts` — `sync`, `writeCatalog`, `recordSyncError`;
* `convex/billing.ts` — the price-resolution portion of
  `createCheckoutSession`;
* `src/hooks/useSession.ts` — the duplicate-tab handshake
  (`isDuplicateFor` over `TAB_EXISTS` messages).

The external document store is modelled as explicit list-valued tables in a
`Db` state; machine numbers (`Date.now()` timestamps, rate-limit windows,
cent amounts) are modelled as `Nat`; thrown JavaScript exceptions are
modelled as `Except.error` carrying the thrown message string.
-/

namespace VP

/-- An authenticated identity as delivered by the auth component
(`authComponent.getAuthUser`): stable id, verified email, optional name. -/
structure AuthUser where
  id : String
  email : String
  name : Option String
  deriving DecidableEq, Repr

/-- A row of the `users` table (`convex/schema.ts`). -/
structure AppUser where
  id : Nat
  authUserId : String
  email : String
  name : Option String
  createdAt : Nat
  activeSessionId : Option String
  sessionStartedAt : Option Nat
  crowdfundingBackerId : Option Nat
  lastSeenAlertAt : Option Nat
  deriving DecidableEq, Repr

/-- A row of the `crowdfunding_backers` table (`convex/schema.ts`). -/
structure Backer where
  id : Nat
  username : String
  usernameLower : Option String
  accessCode : String
  tier : String
  usedByUserId : Option Nat
  usedAt : Option Nat
  pendingClaimToken : Option String
  pendingClaimExpiresAt : Option Nat
  deriving DecidableEq, Repr

/-- An `app_state` row with `key = "config"` (only such rows are ever read
by the code paths modelled here); `creationTime` is the Convex
`_creationTime` field. -/
structure AppStateRow where
  creationTime : Nat
  crowdfundingActive : Bool
  deriving DecidableEq, Repr

/-- The document-store state visible to the session / admission code:
the `users`, `crowdfunding_backers`, `app_state` and `admins` tables.
`admins` is a list of admin emails; `nextUserId` models the allocator for
fresh `users` document ids. -/
structure Db where
  users : List AppUser
  backers : List Backer
  appState : List AppStateRow
  admins : List String
  nextUserId : Nat
  deriving DecidableEq, Repr

/-- Outcome of `rateLimiter.limit`: `ok`, and the `retryAfter` duration in
milliseconds (meaningful when `ok = false`). -/
structure RateLimitResult where
  ok : Bool
  retryAfter : Nat
  deriving DecidableEq, Repr

/-- The arguments of the `ensureAppUser` mutation. -/
structure EnsureArgs where
  crowdfundingBackerId : Option Nat
  crowdfundingBackerToken : Option String
  deriving DecidableEq, Repr

/-- The success result of `ensureAppUser`. -/
structure EnsureOk where
  userId : Nat
  email : String
  name : Option String
  isAdmin : Bool
  sessionId : String
  deriving DecidableEq, Repr

/-- `records.reduce((latest, record) => record._creationTime > latest._creationTime ? record : latest)`
from `convex/fs.ts` (`pickLatestByCreation`), on a nonempty list given as
head and tail. -/
def pickLatestByCreation (head : AppStateRow) (tail : List AppStateRow) : AppStateRow :=
  tail.foldl (fun latest record =>
    if record.creationTime > latest.creationTime then record else latest) head

/-- Reading the crowdfunding flag in `ensureAppUser`: collect the
`app_state` rows with the config key, pick the latest by creation time,
default to `false` when none exist. -/
def crowdfundingActiveOf (db : Db) : Bool :=
  match db.appState with
  | [] => false
  | r :: rs => (pickLatestByCreation r rs).crowdfundingActive

/-- The message thrown by `ensureAppUser` when the `sessionCreate` rate
limit is exceeded; `Math.ceil(retryAfter / 1000)` on natural milliseconds
is `(retryAfter + 999) / 1000`. -/
def rateLimitMessage (retryAfterMs : Nat) : String :=
  "Too many sign-in attempts. Try again in " ++ toString ((retryAfterMs + 999) / 1000)
    ++ " seconds."

/-- `ctx.db.get` on the `crowdfunding_backers` table. -/
def findBacker (db : Db) (bid : Nat) : Option Backer :=
  db.backers.find? (fun b => decide (b.id = bid))

/-- The backer-validation block of `ensureAppUser` (`convex/fs.ts`): runs
whenever `args.crowdfundingBackerId` is supplied, in source order —
missing token, unknown id, already consumed, missing claim token or
expiry, token mismatch, expired claim. -/
def validateBackerArgs (db : Db) (args : EnsureArgs) (now : Nat) : Except String Unit :=
  match args.crowdfundingBackerId with
  | none => .ok ()
  | some bid =>
    match args.crowdfundingBackerToken with
    | none => .error "Backer verification token is required"
    | some tok =>
      match findBacker db bid with
      | none => .error "Invalid backer ID"
      | some backer =>
        if backer.usedByUserId.isSome then
          .error "This backer code has already been used"
        else
          match backer.pendingClaimToken, backer.pendingClaimExpiresAt with
          | some ptok, some pexp =>
            if ptok ≠ tok then
              .error "Backer verification does not match. Please verify again."
            else if pexp < now then
              .error "Backer verification expired. Please verify again."
            else .ok ()
          | some _, none => .error "Backer verification expired. Please verify again."
          | none, _ => .error "Backer verification expired. Please verify again."

/-- `ctx.db.patch(args.crowdfundingBackerId, {usedByUserId, usedAt, pendingClaimToken: undefined, pendingClaimExpiresAt: undefined})`. -/
def consumeBacker (backers : List Backer) (bid userId now : Nat) : List Backer :=
  backers.map (fun b =>
    if b.id = bid then
      { b with usedByUserId := some userId, usedAt := some now,
               pendingClaimToken := none, pendingClaimExpiresAt := none }
    else b)

/-- The account-creation tail of `ensureAppUser`: insert the new `users`
row, mark the backer consumed when one was supplied, and re-read the
inserted row. -/
def insertNewUser (db : Db) (au : AuthUser) (args : EnsureArgs) (sid : String) (now : Nat) :
    Except String (AppUser × Db) :=
  let userId := db.nextUserId
  let newUser : AppUser :=
    { id := userId, authUserId := au.id, email := au.email, name := au.name,
      createdAt := now, activeSessionId := some sid, sessionStartedAt := some now,
      crowdfundingBackerId := args.crowdfundingBackerId, lastSeenAlertAt := none }
  let users' := db.users ++ [newUser]
  let backers' :=
    match args.crowdfundingBackerId with
    | some bid => consumeBacker db.backers bid userId now
    | none => db.backers
  let db' := { db with users := users', backers := backers', nextUserId := db.nextUserId + 1 }
  match users'.find? (fun u => decide (u.id = userId)) with
  | none => .error "Failed to create user record"
  | some newU => .ok (newU, db')

/-- The new-user branch of `ensureAppUser`: the admission gate (require a
backer during crowdfunding, validate a supplied backer), the defensive
email-uniqueness scan, then account creation. -/
def ensureNewUser (db : Db) (au : AuthUser) (crowdfundingActive : Bool) (args : EnsureArgs)
    (sid : String) (now : Nat) : Except String (AppUser × Db) :=
  if crowdfundingActive = true ∧ args.crowdfundingBackerId = none then
    .error "Backer verification is required during crowdfunding"
  else
    match validateBackerArgs db args now with
    | .error e => .error e
    | .ok () =>
      match db.users.filter (fun u => decide (u.email = au.email)) with
      | _ :: _ :: _ => .error "Multiple user records found for this email"
      | [matched] =>
        if matched.authUserId ≠ au.id then
          .error "An account with this email already exists"
        else insertNewUser db au args sid now
      | [] => insertNewUser db au args sid now

/-- The `ensureAppUser` mutation (`convex/fs.ts`, current revision).
Inputs that the handler obtains from its environment are explicit
parameters: the auth component's answer (`authUser`), the rate limiter's
answer (`rl`), the freshly generated `crypto.randomUUID()` session id
(`sid`) and `Date.now()` (`now`). Thrown exceptions are `Except.error`
with the thrown message. -/
def ensureAppUser (db : Db) (authUser : Option AuthUser) (rl : RateLimitResult)
    (args : EnsureArgs) (sid : String) (now : Nat) : Except String (EnsureOk × Db) :=
  match authUser with
  | none => .error "Not authenticated"
  | some au =>
    if rl.ok = false then .error (rateLimitMessage rl.retryAfter)
    else
      let active := crowdfundingActiveOf db
      let existingUsers := db.users.filter (fun u => decide (u.authUserId = au.id))
      if existingUsers.length > 1 then .error "Multiple user records found for this account"
      else
        let step : Except String (AppUser × Db) :=
          match existingUsers.head? with
          | some existingUser =>
            let users' := db.users.map (fun u =>
              if u.id = existingUser.id then
                { u with activeSessionId := some sid, sessionStartedAt := some now }
              else u)
            let db2 := { db with users := users' }
            match users'.find? (fun u => decide (u.id = existingUser.id)) with
            | none => .error "Failed to update user session"
            | some updated => .ok (updated, db2)
          | none => ensureNewUser db au active args sid now
        match step with
        | .error e => .error e
        | .ok (appUser, db') =>
          let isAdmin := db'.admins.contains au.email
          let resolved := appUser.activeSessionId.getD sid
          .ok ({ userId := appUser.id, email := appUser.email, name := appUser.name,
                 isAdmin := isAdmin, sessionId := resolved }, db')

/-- One hex digit of the session-id pattern, case-insensitive
(the regex carries the `i` flag). -/
def isHexChar (c : Char) : Bool :=
  (decide ('0' ≤ c) && decide (c ≤ '9')) ||
  (decide ('a' ≤ c.toLower) && decide (c.toLower ≤ 'f'))

/-- `SESSION_ID_REGEX.test(sessionId)` from `convex/fs.ts`: the pattern
`^[0-9a-f]{8}-[0-9a-f]{4}-4[0-9a-f]{3}-[89ab][0-9a-f]{3}-[0-9a-f]{12}$/i`
read positionally over the 36 characters. -/
def sessionIdTest (s : String) : Bool :=
  let cs := s.toList
  decide (cs.length = 36) &&
  (List.range 36).all (fun i =>
    match cs.get? i with
    | none => false
    | some c =>
      if i = 8 ∨ i = 13 ∨ i = 18 ∨ i = 23 then decide (c = '-')
      else if i = 14 then decide (c = '4')
      else if i = 19 then
        decide (c.toLower = '8') || decide (c.toLower = '9') ||
        decide (c.toLower = 'a') || decide (c.toLower = 'b')
      else isHexChar c)

/-- The reasons `validateSession` can return with `valid: false`. -/
inductive InvalidReason
  | invalid_session_id
  | not_authenticated
  | no_app_user
  | session_invalidated
  deriving DecidableEq, Repr

/-- The result value of `validateSession`. -/
inductive ValidateResult
  | valid
  | invalid (reason : InvalidReason)
  deriving DecidableEq, Repr

/-- What `authComponent.getAuthUser` did inside `validateSession`: threw
(the session was cleared), returned null, or returned a user. -/
inductive AuthOutcome
  | threw
  | noUser
  | user (au : AuthUser)
  deriving DecidableEq, Repr

/-- The `validateSession` query (`convex/fs.ts`, current revision): the
session-id shape guard first, then the auth lookup (exceptions collapse to
`not_authenticated`), then the unique `users` lookup (`.unique()` throws
when more than one row matches), then the lexical token comparison. -/
def validateSession (db : Db) (auth : AuthOutcome) (sessionId : String) :
    Except String ValidateResult :=
  if sessionIdTest sessionId = false then .ok (.invalid .invalid_session_id)
  else
    match auth with
    | .threw => .ok (.invalid .not_authenticated)
    | .noUser => .ok (.invalid .not_authenticated)
    | .user au =>
      match db.users.filter (fun u => decide (u.authUserId = au.id)) with
      | [] => .ok (.invalid .no_app_user)
      | [appUser] =>
        if appUser.activeSessionId = some sessionId then .ok .valid
        else .ok (.invalid .session_invalidated)
      | _ :: _ :: _ => .error "unique() returned more than one document"

/-- The result value of the rate-limited `verifyBacker` snapshot
(`convex/crowdfundingBackers.ts`): `retryAfter` is in whole seconds, as
returned to the caller. -/
inductive VerifyResult
  | rateLimited (retryAfter : Nat)
  | invalidCredentials
  | alreadyUsed
  | ok (backerId : Nat) (tier : String)
  deriving DecidableEq, Repr

/-- The rate-limited `verifyBacker` mutation snapshot
(`convex/crowdfundingBackers.ts`): rate-limit rejection is returned as a
result value carrying `retryAfter` (never thrown); then an exact
`by_username_code` lookup (`.unique()` throws on duplicates), then the
consumption check. -/
def verifyBacker (db : Db) (rl : RateLimitResult) (username accessCode : String) :
    Except String VerifyResult :=
  if rl.ok = false then .ok (.rateLimited ((rl.retryAfter + 999) / 1000))
  else
    match db.backers.filter (fun b =>
        decide (b.username = username) && decide (b.accessCode = accessCode)) with
    | [] => .ok .invalidCredentials
    | [backer] =>
      if backer.usedByUserId.isSome then .ok .alreadyUsed
      else .ok (.ok backer.id backer.tier)
    | _ :: _ :: _ => .error "unique() returned more than one document"

/-- The result value of the claim-minting proof verification. -/
inductive ClaimResult
  | rateLimited (retryAfter : Nat)
  | invalidCredentials
  | alreadyUsed
  | ok (backerId : Nat) (tier : String) (claimToken : String) (claimExpiresAt : Nat)
  deriving DecidableEq, Repr

/-- The claim-token lifetime: 10 minutes, in milliseconds. -/
def claimTokenTtlMs : Nat := 10 * 60 * 1000

/-- JavaScript `toLowerCase` applied to the character data of a string. -/
def lowerString (s : String) : String := String.mk (s.data.map Char.toLower)

/-- Modelled from the spec: the current claim-minting revision of
`verifyBacker` is not present in the repository snapshot (only legacy
revisions are), while its declarations (`usernameLower`,
`by_usernameLower_code`, `pendingClaimToken`, `pendingClaimExpiresAt` in
`convex/schema.ts`) and its consumer (`ensureAppUser`) are. Per the spec:
rate-limited per normalized handle; matches case-insensitively via the
normalized-handle+code index, with a fallback linear scan for legacy
un-normalized records; rejects consumed proofs as already used; on a
fresh match mints a new claim token with a 10-minute expiry, overwriting
any prior claim, and normalizes the legacy record on use. -/
def claimProof (db : Db) (rl : RateLimitResult) (username accessCode : String)
    (freshToken : String) (now : Nat) : ClaimResult × Db :=
  if rl.ok = false then (.rateLimited ((rl.retryAfter + 999) / 1000), db)
  else
    let uLower := lowerString username
    let byIndex := db.backers.filter (fun b =>
      decide (b.usernameLower = some uLower) && decide (b.accessCode = accessCode))
    let found : Option Backer :=
      match byIndex.head? with
      | some b => some b
      | none =>
        (db.backers.filter (fun b =>
          decide (b.usernameLower = none) && decide (lowerString b.username = uLower) &&
          decide (b.accessCode = accessCode))).head?
    match found with
    | none => (.invalidCredentials, db)
    | some b =>
      if b.usedByUserId.isSome then (.alreadyUsed, db)
      else
        let expiry := now + claimTokenTtlMs
        let backers' := db.backers.map (fun x =>
          if x.id = b.id then
            { x with usernameLower := some uLower,
                     pendingClaimToken := some freshToken,
                     pendingClaimExpiresAt := some expiry }
          else x)
        (.ok b.id b.tier freshToken expiry, { db with backers := backers' })

/-- A product entry of the `pricing_catalog` snapshot
(`convex/pricingCatalog.ts` / `convex/schema.ts`); metadata is a string
record, modelled as an association list. -/
structure CatalogProduct where
  productId : String
  name : String
  active : Bool
  metadata : List (String × String)
  deriving DecidableEq, Repr

/-- A price entry of the `pricing_catalog` snapshot. -/
structure CatalogPrice where
  priceId : String
  productId : String
  unitAmount : Nat
  currency : String
  interval : String
  active : Bool
  nickname : Option String
  metadata : List (String × String)
  deriving DecidableEq, Repr

/-- The `pricing_catalog` singleton row (`key = "catalog"`). -/
structure Catalog where
  products : List CatalogProduct
  prices : List CatalogPrice
  lastSyncedAt : Nat
  lastSyncError : Option String
  lastSyncFailedAt : Option Nat
  deriving DecidableEq, Repr

/-- `metadata.app` style field access on a string record: `none` models a
missing key (JavaScript `undefined`). -/
def metaGet (m : List (String × String)) (k : String) : Option String :=
  (m.find? (fun p => decide (p.1 = k))).map (fun p => p.2)

/-- A raw Stripe product as fetched by the sync action (only the fields
the action reads). -/
structure StripeProduct where
  id : String
  name : String
  active : Bool
  metadata : List (String × String)
  deriving DecidableEq, Repr

/-- A raw Stripe price as fetched by the sync action (active recurring
prices only, as requested by the fetch). -/
structure StripePrice where
  id : String
  productId : String
  unitAmount : Option Nat
  currency : String
  interval : Option String
  active : Bool
  nickname : Option String
  metadata : List (String × String)
  deriving DecidableEq, Repr

/-- `internal.pricingCatalog.writeCatalog`: overwrite the snapshot
wholesale, clearing the error fields; insert a fresh row when none
exists. -/
def writeCatalog (cat : Option Catalog) (products : List CatalogProduct)
    (prices : List CatalogPrice) (now : Nat) : Catalog :=
  match cat with
  | some c =>
    { c with products := products, prices := prices, lastSyncedAt := now,
             lastSyncError := none, lastSyncFailedAt := none }
  | none =>
    { products := products, prices := prices, lastSyncedAt := now,
      lastSyncError := none, lastSyncFailedAt := none }

/-- `internal.pricingCatalog.recordSyncError`: patch only the error
message and failure timestamp onto the existing snapshot, or insert an
empty snapshot carrying just the error when none exists. -/
def recordSyncError (cat : Option Catalog) (err : String) (now : Nat) : Catalog :=
  match cat with
  | some c => { c with lastSyncError := some err, lastSyncFailedAt := some now }
  | none =>
    { products := [], prices := [], lastSyncedAt := 0,
      lastSyncError := some err, lastSyncFailedAt := some now }

/-- The result value returned by the sync action. -/
inductive SyncOutcome
  | success (productCount priceCount : Nat)
  | failure (error : String)
  deriving DecidableEq, Repr

/-- The `pricingCatalog.sync` action. The paginated Stripe fetch is
modelled by its outcome: `.ok` carries the fetched product and price
lists, `.error` carries the message of an exception raised mid-fetch.
On success: filter products by `metadata.app`, keep prices whose
`metadata.app` matches or whose product matched, transform, and overwrite
the snapshot. On any exception: record the error on the prior snapshot. -/
def sync (cat : Option Catalog) (metadataLookup : String)
    (fetch : Except String (List StripeProduct × List StripePrice)) (now : Nat) :
    SyncOutcome × Catalog :=
  match fetch with
  | .error e => (.failure e, recordSyncError cat e now)
  | .ok (allProducts, allPrices) =>
    let matchingProducts := allProducts.filter (fun p =>
      decide (metaGet p.metadata "app" = some metadataLookup))
    let matchingPrices := allPrices.filter (fun p =>
      decide (metaGet p.metadata "app" = some metadataLookup) ||
      matchingProducts.any (fun q => decide (q.id = p.productId)))
    let products := matchingProducts.map (fun p =>
      { productId := p.id, name := p.name, active := p.active,
        metadata := p.metadata : CatalogProduct })
    let prices := matchingPrices.map (fun p =>
      { priceId := p.id, productId := p.productId, unitAmount := p.unitAmount.getD 0,
        currency := p.currency, interval := p.interval.getD "month", active := p.active,
        nickname := p.nickname, metadata := p.metadata : CatalogPrice })
    (.success products.length prices.length, writeCatalog cat products prices now)

/-- The price-matching predicate of `createCheckoutSession`
(`convex/billing.ts`): exact match on `metadata.tier`,
`metadata.audience`, `interval` and `active`. -/
def priceMatches (tier interval audience : String) (p : CatalogPrice) : Bool :=
  decide (metaGet p.metadata "tier" = some tier) &&
  decide (metaGet p.metadata "audience" = some audience) &&
  decide (p.interval = interval) &&
  p.active

/-- The price-resolution portion of `createCheckoutSession`
(`convex/billing.ts`): missing or empty catalog, zero matches and
multiple matches each throw; exactly one match is returned. -/
def resolveCheckoutPrice (catalog : Option Catalog) (tier interval audience : String) :
    Except String CatalogPrice :=
  match catalog with
  | none => .error "Pricing catalog not available. Please contact support."
  | some cat =>
    if cat.prices.length = 0 then
      .error "Pricing catalog not available. Please contact support."
    else
      match cat.prices.filter (priceMatches tier interval audience) with
      | [] => .error ("No price found for " ++ tier ++ " " ++ interval ++ " " ++ audience)
      | [p] => .ok p
      | _ :: _ :: _ =>
        .error ("Multiple prices found for " ++ tier ++ " " ++ interval ++ " " ++ audience
          ++ ". Please contact support.")

/-- A browser tab in the duplicate-tab handshake
(`src/hooks/useSession.ts`): its random `tabId` and the wall-clock time
its coordination effect first ran. -/
structure Tab where
  tabId : String
  openedAt : Nat
  deriving DecidableEq, Repr

/-- A `TAB_EXISTS` broadcast message: the responding tab's id and open
time. -/
structure TabExists where
  tabId : String
  openedAt : Nat
  deriving DecidableEq, Repr

/-- `isDuplicateFor` from `src/hooks/useSession.ts`: the receiving tab is
the duplicate exactly when the other tab opened strictly earlier, or
opened at the same time and its id compares lexicographically smaller
(`otherTabId.localeCompare(tabId.current) < 0`). -/
def isDuplicateFor (currentOpenedAt : Nat) (currentId : String)
    (otherOpenedAt : Nat) (otherId : String) : Bool :=
  if otherOpenedAt < currentOpenedAt then true
  else if otherOpenedAt > currentOpenedAt then false
  else decide (otherId < currentId)

/-- The `TAB_EXISTS` handler of `src/hooks/useSession.ts`, accumulated
over every delivered message: the sticky `isDuplicateTab` flag is set as
soon as some received `TAB_EXISTS` from another tab says the other tab
existed first. `List.any` makes the outcome independent of the delivery
order of the received messages. -/
def flaggedDuplicate (tab : Tab) (received : List TabExists) : Bool :=
  received.any (fun m =>
    decide (m.tabId ≠ tab.tabId) &&
    isDuplicateFor tab.openedAt tab.tabId m.openedAt m.tabId)

/-- Store well-formedness as Convex guarantees it for real document ids:
`users` ids are pairwise distinct and the fresh-id allocator is ahead of
every existing id. -/
def Db.WF (db : Db) : Prop :=
  db.users.Pairwise (fun a b => a.id ≠ b.id) ∧ ∀ u ∈ db.users, u.id < db.nextUserId

/-! ## Example fixtures used by witness theorems -/

/-- A sample authenticated identity. -/
def exAu : AuthUser := { id := "auth-1", email := "alice@example.com", name := some "Alice" }

/-- A second, distinct sample identity. -/
def exAu2 : AuthUser := { id := "auth-2", email := "bob@example.com", name := none }

/-- A sample well-formed session token (v4 UUID shape). -/
def exUuidA : String := "aaaaaaaa-aaaa-4aaa-8aaa-aaaaaaaaaaaa"

/-- A second, distinct well-formed session token. -/
def exUuidB : String := "bbbbbbbb-bbbb-4bbb-9bbb-bbbbbbbbbbbb"

/-- An empty store. -/
def exDbEmpty : Db :=
  { users := [], backers := [], appState := [], admins := [], nextUserId := 0 }

/-- A fresh, claimable admission proof (claim token valid until `600000`). -/
def exBacker : Backer :=
  { id := 7, username := "Alice", usernameLower := some "alice", accessCode := "CODE1",
    tier := "Gold", usedByUserId := none, usedAt := none,
    pendingClaimToken := some "tok-1", pendingClaimExpiresAt := some 600000 }

/-- An already-consumed admission proof. -/
def exBackerUsed : Backer := { exBacker with id := 8, usedByUserId := some 3, usedAt := some 50 }

/-- An admission proof with no pending claim. -/
def exBackerStale : Backer :=
  { exBacker with id := 9, pendingClaimToken := none, pendingClaimExpiresAt := none }

/-- A store with crowdfunding gating on and three sample proofs. -/
def exDbGated : Db :=
  { users := [], backers := [exBacker, exBackerUsed, exBackerStale],
    appState := [{ creationTime := 1, crowdfundingActive := true }], admins := [],
    nextUserId := 0 }

/-- The same store with gating off. -/
def exDbOpen : Db :=
  { exDbGated with appState := [{ creationTime := 1, crowdfundingActive := false }] }

/-- A rate-limiter pass. -/
def exRlOk : RateLimitResult := { ok := true, retryAfter := 0 }

/-- A rate-limiter rejection with 4200 ms left in the window. -/
def exRlBlocked : RateLimitResult := { ok := false, retryAfter := 4200 }

/-! ## Claim C3 — malformed tokens are rejected without any lookup -/

/-- C3: for every input string that fails the random-identifier shape test,
`validateSession` returns invalid with the token-format reason (the code
spells it `invalid_session_id`), for every store state and every auth
outcome — so no identity-provider or user-record lookup is needed to
produce the result. -/
theorem claim3_malformed_token_rejected (db : Db) (auth : AuthOutcome) (t : String)
    (h : sessionIdTest t = false) :
    validateSession db auth t = .ok (.invalid .invalid_session_id) := by
  simp [validateSession, h]

/-- Witness for C3 at a concrete malformed token and a nonempty store. -/
theorem claim3_witness :
    validateSession exDbGated (.user exAu) "not-a-uuid" = .ok (.invalid .invalid_session_id) :=
  claim3_malformed_token_rejected exDbGated (.user exAu) "not-a-uuid" (by decide)

/-! ## Claim C5 — rate-limit rejection shapes -/

/-- C5 counterexample: exceeding the `sessionCreate` quota makes
`ensureAppUser` throw a hard failure whose retry-after lives only inside a
human-readable message string — not a result value — refuting the claim
that every rate-limited operation returns a retry-after duration as
data. -/
theorem claim5_counterexample :
    ensureAppUser exDbEmpty (some exAu) exRlBlocked ⟨none, none⟩ exUuidA 100 =
      .error "Too many sign-in attempts. Try again in 5 seconds." := by rfl

/-- C5 (amended): `verifyBacker` reports rate-limit rejection as a result
value carrying the retry-after duration in seconds, while `ensureAppUser`
instead throws an error whose human-readable message embeds the
retry-after seconds. -/
theorem claim5_rate_limit_shapes (db : Db) (au : AuthUser) (rl : RateLimitResult)
    (args : EnsureArgs) (sid username accessCode : String) (now : Nat)
    (h : rl.ok = false) :
    verifyBacker db rl username accessCode = .ok (.rateLimited ((rl.retryAfter + 999) / 1000)) ∧
    ensureAppUser db (some au) rl args sid now = .error (rateLimitMessage rl.retryAfter) := by
  constructor
  · simp [verifyBacker, h]
  · simp [ensureAppUser, h]

/-- Witness for the amended C5 at concrete rate-limited inputs. -/
theorem claim5_witness :
    verifyBacker exDbGated exRlBlocked "Alice" "CODE1" = .ok (.rateLimited 5) ∧
    ensureAppUser exDbEmpty (some exAu) exRlBlocked ⟨none, none⟩ exUuidA 100 =
      .error (rateLimitMessage 4200) :=
  claim5_rate_limit_shapes exDbGated exAu exRlBlocked ⟨none, none⟩ exUuidA "Alice" "CODE1" 100 rfl

/-! ## Claim C6 — failed sync never partially merges the snapshot -/

/-- C6: when the sync action's fetch raises any exception, the resulting
snapshot keeps the previously stored products, prices and success
timestamp unchanged (empty/zero when no snapshot existed yet) and records
exactly the error message and the failure timestamp; the action reports
the failure. -/
theorem claim6_sync_failure_preserves_snapshot (cat : Option Catalog)
    (lookup e : String) (now : Nat) :
    (sync cat lookup (.error e) now).2.products = (cat.map Catalog.products).getD [] ∧
    (sync cat lookup (.error e) now).2.prices = (cat.map Catalog.prices).getD [] ∧
    (sync cat lookup (.error e) now).2.lastSyncedAt = (cat.map Catalog.lastSyncedAt).getD 0 ∧
    (sync cat lookup (.error e) now).2.lastSyncError = some e ∧
    (sync cat lookup (.error e) now).2.lastSyncFailedAt = some now ∧
    (sync cat lookup (.error e) now).1 = .failure e := by
  cases cat <;> simp [sync, recordSyncError]

/-! ## Claim C7 — checkout price resolution requires exactly one match -/

/-- C7: against a fixed snapshot, price resolution is a pure function of
(tier, interval, audience): when exactly one active price matches all
three dimensions every call returns that single price, and when zero or
more than one price match the call is rejected as an error — it never
silently picks one of several matches. -/
theorem claim7_price_resolution (cat : Catalog) (tier interval audience : String)
    (p : CatalogPrice) :
    (cat.prices.filter (priceMatches tier interval audience) = [p] →
      resolveCheckoutPrice (some cat) tier interval audience = .ok p) ∧
    (cat.prices.filter (priceMatches tier interval audience) = [] →
      ∃ msg, resolveCheckoutPrice (some cat) tier interval audience = .error msg) ∧
    ((cat.prices.filter (priceMatches tier interval audience)).length > 1 →
      ∃ msg, resolveCheckoutPrice (some cat) tier interval audience = .error msg) := by
  refine ⟨?_, ?_, ?_⟩
  · intro h
    have hne : ¬ cat.prices.length = 0 := by
      intro h0
      rw [List.length_eq_zero] at h0
      rw [h0] at h
      simp at h
    simp only [resolveCheckoutPrice, if_neg hne, h]
  · intro h
    by_cases h0 : cat.prices.length = 0
    · exact ⟨"Pricing catalog not available. Please contact support.",
        by simp only [resolveCheckoutPrice, if_pos h0]⟩
    · exact ⟨"No price found for " ++ tier ++ " " ++ interval ++ " " ++ audience,
        by simp only [resolveCheckoutPrice, if_neg h0, h]⟩
  · intro h
    have hne : ¬ cat.prices.length = 0 := by
      intro h0
      rw [List.length_eq_zero] at h0
      rw [h0] at h
      simp at h
    rcases hm : cat.prices.filter (priceMatches tier interval audience) with _ | ⟨a, _ | ⟨b, t⟩⟩
    · rw [hm] at h; simp at h
    · rw [hm] at h; simp at h
    · exact ⟨"Multiple prices found for " ++ tier ++ " " ++ interval ++ " " ++ audience
          ++ ". Please contact support.",
        by simp only [resolveCheckoutPrice, if_neg hne, hm]⟩

/-- A concrete one-price snapshot for the C7 witness. -/
def exPrice : CatalogPrice :=
  { priceId := "price_1", productId := "prod_1", unitAmount := 900, currency := "usd",
    interval := "month", active := true, nickname := none,
    metadata := [("app", "vector-projector"), ("tier", "personal"), ("audience", "public")] }

/-- A catalog whose only active `personal`/`month`/`public` price is
`exPrice`. -/
def exCatalog : Catalog :=
  { products := [], prices := [exPrice], lastSyncedAt := 5, lastSyncError := none,
    lastSyncFailedAt := none }

/-- Witness for C7: the unique match is returned at a concrete snapshot. -/
theorem claim7_witness :
    resolveCheckoutPrice (some exCatalog) "personal" "month" "public" = .ok exPrice :=
  (claim7_price_resolution exCatalog "personal" "month" "public" exPrice).1 (by rfl)

/-! ## Claim C8 — duplicate-tab determinism -/

/-- C8: in the duplicate-tab handshake, for tabs with distinct random ids
where every message each tab receives is the other tab's `TAB_EXISTS`
announcement: if A opened strictly earlier than B then A is never flagged
as the duplicate — whatever messages are delivered and in whatever order —
and B is always flagged once it receives any response; if both opened at
the same time, the tie breaks consistently by comparing the per-tab ids:
exactly one of the two tabs is flagged, namely the one whose id compares
greater. -/
theorem claim8_duplicate_tab_determinism (A B : Tab) (msgsA msgsB : List TabExists)
    (hid : A.tabId ≠ B.tabId)
    (hA : ∀ m ∈ msgsA, m = ⟨B.tabId, B.openedAt⟩)
    (hB : ∀ m ∈ msgsB, m = ⟨A.tabId, A.openedAt⟩) :
    (A.openedAt < B.openedAt → flaggedDuplicate A msgsA = false) ∧
    (A.openedAt < B.openedAt → msgsB ≠ [] → flaggedDuplicate B msgsB = true) ∧
    (A.openedAt = B.openedAt → msgsA ≠ [] → msgsB ≠ [] →
      ((flaggedDuplicate A msgsA = true ↔ B.tabId < A.tabId) ∧
       (flaggedDuplicate B msgsB = true ↔ A.tabId < B.tabId) ∧
       flaggedDuplicate A msgsA ≠ flaggedDuplicate B msgsB)) := by
  have hnltA : ∀ h : A.openedAt = B.openedAt, ¬ B.openedAt < A.openedAt := by
    intro h; rw [h]; exact lt_irrefl _
  have hnltB : ∀ h : A.openedAt = B.openedAt, ¬ A.openedAt < B.openedAt := by
    intro h; rw [h]; exact lt_irrefl _
  refine ⟨?_, ?_, ?_⟩
  · intro hlt
    rw [flaggedDuplicate, List.any_eq_false]
    intro m hm
    rw [hA m hm]
    have hnlt : ¬ B.openedAt < A.openedAt := Nat.lt_asymm hlt
    simp [isDuplicateFor, hnlt, hlt]
  · intro hlt hne
    rw [flaggedDuplicate, List.any_eq_true]
    obtain ⟨m, hm⟩ := List.exists_mem_of_ne_nil msgsB hne
    refine ⟨m, hm, ?_⟩
    rw [hB m hm]
    simp [isDuplicateFor, hlt, hid]
  · intro heq hneA hneB
    have hAflag : flaggedDuplicate A msgsA = true ↔ B.tabId < A.tabId := by
      rw [flaggedDuplicate, List.any_eq_true]
      constructor
      · rintro ⟨m, hm, hdup⟩
        rw [hA m hm] at hdup
        simp only [isDuplicateFor] at hdup
        rw [if_neg (hnltA heq), if_neg (hnltB heq)] at hdup
        rw [Bool.and_eq_true, decide_eq_true_eq, decide_eq_true_eq] at hdup
        exact hdup.2
      · intro hlt
        obtain ⟨m, hm⟩ := List.exists_mem_of_ne_nil msgsA hneA
        refine ⟨m, hm, ?_⟩
        rw [hA m hm]
        simp only [isDuplicateFor]
        rw [if_neg (hnltA heq), if_neg (hnltB heq)]
        rw [Bool.and_eq_true, decide_eq_true_eq, decide_eq_true_eq]
        exact ⟨Ne.symm hid, hlt⟩
    have hBflag : flaggedDuplicate B msgsB = true ↔ A.tabId < B.tabId := by
      rw [flaggedDuplicate, List.any_eq_true]
      constructor
      · rintro ⟨m, hm, hdup⟩
        rw [hB m hm] at hdup
        simp only [isDuplicateFor] at hdup
        rw [if_neg (hnltB heq), if_neg (hnltA heq)] at hdup
        rw [Bool.and_eq_true, decide_eq_true_eq, decide_eq_true_eq] at hdup
        exact hdup.2
      · intro hlt
        obtain ⟨m, hm⟩ := List.exists_mem_of_ne_nil msgsB hneB
        refine ⟨m, hm, ?_⟩
        rw [hB m hm]
        simp only [isDuplicateFor]
        rw [if_neg (hnltB heq), if_neg (hnltA heq)]
        rw [Bool.and_eq_true, decide_eq_true_eq, decide_eq_true_eq]
        exact ⟨hid, hlt⟩
    refine ⟨hAflag, hBflag, ?_⟩
    rcases lt_trichotomy A.tabId B.tabId with hlt | hEq | hgt
    · have h1 : flaggedDuplicate B msgsB = true := hBflag.mpr hlt
      intro hcontra
      exact lt_asymm hlt (hAflag.mp (hcontra.trans h1))
    · exact absurd hEq hid
    · have h1 : flaggedDuplicate A msgsA = true := hAflag.mpr hgt
      intro hcontra
      exact lt_asymm hgt (hBflag.mp (hcontra.symm.trans h1))

/-- Witness for C8 at two concrete tabs (open times 10 < 20) and singleton
message lists. -/
theorem claim8_witness :
    ((Tab.mk "idA" 10).openedAt < (Tab.mk "idB" 20).openedAt →
      flaggedDuplicate (Tab.mk "idA" 10) [TabExists.mk "idB" 20] = false) ∧
    ((Tab.mk "idA" 10).openedAt < (Tab.mk "idB" 20).openedAt →
      [TabExists.mk "idA" 10] ≠ [] →
      flaggedDuplicate (Tab.mk "idB" 20) [TabExists.mk "idA" 10] = true) ∧
    ((Tab.mk "idA" 10).openedAt = (Tab.mk "idB" 20).openedAt →
      [TabExists.mk "idB" 20] ≠ [] → [TabExists.mk "idA" 10] ≠ [] →
      ((flaggedDuplicate (Tab.mk "idA" 10) [TabExists.mk "idB" 20] = true ↔ "idB" < "idA") ∧
       (flaggedDuplicate (Tab.mk "idB" 20) [TabExists.mk "idA" 10] = true ↔ "idA" < "idB") ∧
       flaggedDuplicate (Tab.mk "idA" 10) [TabExists.mk "idB" 20] ≠
         flaggedDuplicate (Tab.mk "idB" 20) [TabExists.mk "idA" 10])) :=
  claim8_duplicate_tab_determinism (Tab.mk "idA" 10) (Tab.mk "idB" 20)
    [TabExists.mk "idB" 20] [TabExists.mk "idA" 10]
    (by decide) (by decide) (by decide)

/-! ## Claim C4 — proof claiming matches handles case-insensitively -/

/-- C4: proof claiming is insensitive to the casing of the supplied
handle — two claim attempts whose handles agree after lowercasing produce
identical results against any store — and when the store holds exactly one
unconsumed proof under the normalized handle and supplied code, the claim
succeeds with that proof's id and tier and a fresh 10-minute claim
token. -/
theorem claim4_claim_handle_case_insensitive (db : Db) (rl : RateLimitResult)
    (s₁ s₂ code tok : String) (now : Nat) (b : Backer)
    (hcase : lowerString s₁ = lowerString s₂) :
    claimProof db rl s₁ code tok now = claimProof db rl s₂ code tok now ∧
    (rl.ok = true →
      db.backers.filter (fun x =>
        decide (x.usernameLower = some (lowerString s₁)) && decide (x.accessCode = code)) = [b] →
      b.usedByUserId = none →
      (claimProof db rl s₁ code tok now).1 = .ok b.id b.tier tok (now + claimTokenTtlMs)) := by
  constructor
  · simp only [claimProof, hcase]
  · intro hok hfilter hunused
    simp [claimProof, hok, hfilter, hunused]

/-- A store holding only the fresh `exBacker` proof, stored under handle
`"Alice"` with normalized handle `"alice"`. -/
def exDbClaim : Db :=
  { users := [], backers := [exBacker],
    appState := [{ creationTime := 1, crowdfundingActive := true }], admins := [],
    nextUserId := 0 }

/-- Witness for C4: claiming with `"ALICE"` and `"alice"` against the
stored handle `"Alice"` behaves identically and succeeds. -/
theorem claim4_witness :
    claimProof exDbClaim exRlOk "ALICE" "CODE1" "tok-fresh" 100 =
      claimProof exDbClaim exRlOk "alice" "CODE1" "tok-fresh" 100 ∧
    (exRlOk.ok = true →
      exDbClaim.backers.filter (fun x =>
        decide (x.usernameLower = some (lowerString "ALICE")) &&
        decide (x.accessCode = "CODE1")) = [exBacker] →
      exBacker.usedByUserId = none →
      (claimProof exDbClaim exRlOk "ALICE" "CODE1" "tok-fresh" 100).1 =
        .ok exBacker.id exBacker.tier "tok-fresh" (100 + claimTokenTtlMs)) :=
  claim4_claim_handle_case_insensitive exDbClaim exRlOk "ALICE" "alice" "CODE1" "tok-fresh"
    100 exBacker (by decide)

/-! ## Generic list helpers for the session state-machine proofs -/

/-- A list with at most one element whose head is `a` is `[a]`. -/
theorem length_le_one_head_eq {α : Type _} {l : List α} {a : α}
    (hlen : ¬ l.length > 1) (hhd : l.head? = some a) : l = [a] := by
  cases l with
  | nil => simp at hhd
  | cons x t =>
    cases t with
    | nil =>
      simp only [List.head?_cons, Option.some_inj] at hhd
      rw [hhd]
    | cons y t' => exact absurd (by simp [List.length_cons]) hlen

/-- Filtering after a pointwise predicate-preserving map is mapping the
filtered list. -/
theorem filter_map_pred_preserving {α : Type _} (f : α → α) (p : α → Bool) (l : List α)
    (hp : ∀ x, p (f x) = p x) : (l.map f).filter p = (l.filter p).map f := by
  rw [List.filter_map]
  congr 1
  apply List.filter_congr
  intro x _
  exact hp x

/-- `find?` after a pointwise predicate-preserving map finds the image of
the original find. -/
theorem find_map_pred_preserving {α : Type _} (f : α → α) (p : α → Bool) (l : List α)
    (hp : ∀ x, p (f x) = p x) : (l.map f).find? p = (l.find? p).map f := by
  induction l with
  | nil => simp
  | cons a t ih =>
    by_cases hpa : p a = true
    · rw [List.map_cons, List.find?_cons_of_pos _ (by rw [hp a]; exact hpa),
        List.find?_cons_of_pos _ hpa, Option.map_some']
    · rw [List.map_cons, List.find?_cons_of_neg _ (by rw [hp a]; exact hpa),
        List.find?_cons_of_neg _ hpa, ih]

/-! ## Branch equations for `ensureAppUser` -/

/-- With the rate limit passed and no existing user row for the identity,
`ensureAppUser` runs the admission gate and account creation and wraps the
result. -/
theorem ensureAppUser_new_branch (db : Db) (au : AuthUser) (rl : RateLimitResult)
    (args : EnsureArgs) (sid : String) (now : Nat)
    (hrl : rl.ok = true)
    (hnone : db.users.filter (fun u => decide (u.authUserId = au.id)) = []) :
    ensureAppUser db (some au) rl args sid now =
      match ensureNewUser db au (crowdfundingActiveOf db) args sid now with
      | .error e => .error e
      | .ok (appUser, db') =>
        .ok ({ userId := appUser.id, email := appUser.email, name := appUser.name,
               isAdmin := db'.admins.contains au.email,
               sessionId := appUser.activeSessionId.getD sid }, db') := by
  simp only [ensureAppUser, hnone, hrl, List.length_nil, List.head?_nil]
  simp

/-- Gating on with no supplied proof rejects account creation. -/
theorem ensureNewUser_gate_error (db : Db) (au : AuthUser) (args : EnsureArgs)
    (sid : String) (now : Nat) (hnone : args.crowdfundingBackerId = none) :
    ensureNewUser db au true args sid now =
      .error "Backer verification is required during crowdfunding" := by
  simp [ensureNewUser, hnone]

/-- A backer-validation failure propagates out of account creation. -/
theorem ensureNewUser_validate_error (db : Db) (au : AuthUser) (active : Bool)
    (args : EnsureArgs) (sid : String) (now : Nat) (e : String)
    (hsome : args.crowdfundingBackerId ≠ none)
    (hval : validateBackerArgs db args now = .error e) :
    ensureNewUser db au active args sid now = .error e := by
  simp only [ensureNewUser]
  rw [if_neg (fun h => hsome h.2)]
  simp only [hval]

/-- With the gate passed, validation succeeded and no email collision,
account creation proceeds to the insert. -/
theorem ensureNewUser_insert (db : Db) (au : AuthUser) (active : Bool) (args : EnsureArgs)
    (sid : String) (now : Nat)
    (hgate : ¬ (active = true ∧ args.crowdfundingBackerId = none))
    (hval : validateBackerArgs db args now = .ok ())
    (hemail : db.users.filter (fun u => decide (u.email = au.email)) = []) :
    ensureNewUser db au active args sid now = insertNewUser db au args sid now := by
  simp only [ensureNewUser]
  rw [if_neg hgate]
  simp only [hval, hemail]

/-- When the fresh-id allocator is ahead of every stored user id, the
insert returns the new row and the updated store. -/
theorem insertNewUser_eq (db : Db) (au : AuthUser) (args : EnsureArgs) (sid : String)
    (now : Nat) (hWF : ∀ u ∈ db.users, u.id < db.nextUserId) :
    insertNewUser db au args sid now =
      .ok ({ id := db.nextUserId, authUserId := au.id, email := au.email, name := au.name,
             createdAt := now, activeSessionId := some sid, sessionStartedAt := some now,
             crowdfundingBackerId := args.crowdfundingBackerId, lastSeenAlertAt := none },
           { db with
              users := db.users ++
                [{ id := db.nextUserId, authUserId := au.id, email := au.email,
                   name := au.name, createdAt := now, activeSessionId := some sid,
                   sessionStartedAt := some now,
                   crowdfundingBackerId := args.crowdfundingBackerId,
                   lastSeenAlertAt := none }],
              backers := match args.crowdfundingBackerId with
                         | some bid => consumeBacker db.backers bid db.nextUserId now
                         | none => db.backers,
              nextUserId := db.nextUserId + 1 }) := by
  have hfind : db.users.find? (fun u => decide (u.id = db.nextUserId)) = none := by
    rw [List.find?_eq_none]
    intro u hu
    simp only [decide_eq_true_eq]
    exact Nat.ne_of_lt (hWF u hu)
  simp only [insertNewUser, List.find?_append, hfind, Option.none_or]
  simp

/-- Inversion for a successful account creation: the returned row is the
freshly inserted one and the store gained exactly that row (plus the
backer consumption when a proof was supplied). -/
theorem ensureNewUser_ok_inv (db : Db) (au : AuthUser) (active : Bool) (args : EnsureArgs)
    (sid : String) (now : Nat) (appUser : AppUser) (dbN : Db)
    (hWF : ∀ u ∈ db.users, u.id < db.nextUserId)
    (h : ensureNewUser db au active args sid now = .ok (appUser, dbN)) :
    appUser = { id := db.nextUserId, authUserId := au.id, email := au.email, name := au.name,
                createdAt := now, activeSessionId := some sid, sessionStartedAt := some now,
                crowdfundingBackerId := args.crowdfundingBackerId, lastSeenAlertAt := none } ∧
    dbN = { db with users := db.users ++ [appUser],
                    backers := match args.crowdfundingBackerId with
                               | some bid => consumeBacker db.backers bid db.nextUserId now
                               | none => db.backers,
                    nextUserId := db.nextUserId + 1 } := by
  simp only [ensureNewUser] at h
  by_cases hgate : active = true ∧ args.crowdfundingBackerId = none
  · rw [if_pos hgate] at h
    exact absurd h (by simp)
  · rw [if_neg hgate] at h
    rcases hval : validateBackerArgs db args now with e | u
    · simp only [hval] at h
      exact absurd h (by simp)
    · simp only [hval] at h
      have hinsert := insertNewUser_eq db au args sid now hWF
      rcases hemail : db.users.filter (fun u => decide (u.email = au.email)) with
        _ | ⟨m, _ | ⟨m2, t2⟩⟩
      · rw [hemail] at h
        simp only at h
        rw [hinsert] at h
        simp only [Except.ok.injEq, Prod.mk.injEq] at h
        obtain ⟨hu, hdb⟩ := h
        refine ⟨hu.symm, ?_⟩
        rw [← hdb, ← hu]
      · rw [hemail] at h
        simp only at h
        by_cases hmatched : m.authUserId ≠ au.id
        · rw [if_pos hmatched] at h
          exact absurd h (by simp)
        · rw [if_neg hmatched] at h
          rw [hinsert] at h
          simp only [Except.ok.injEq, Prod.mk.injEq] at h
          obtain ⟨hu, hdb⟩ := h
          refine ⟨hu.symm, ?_⟩
          rw [← hdb, ← hu]
      · rw [hemail] at h
        simp only at h
        exact absurd h (by simp)

/-- Master inversion for a successful `ensureAppUser`: the returned
session id is the freshly generated one, and afterwards the identity has
exactly one user row, whose active session token is the fresh id. -/
theorem ensureAppUser_ok_shape (db : Db) (au : AuthUser) (rl : RateLimitResult)
    (args : EnsureArgs) (sid : String) (now : Nat) (res : EnsureOk) (db' : Db)
    (hWF : ∀ u ∈ db.users, u.id < db.nextUserId)
    (h : ensureAppUser db (some au) rl args sid now = .ok (res, db')) :
    res.sessionId = sid ∧
    ∃ u', db'.users.filter (fun u => decide (u.authUserId = au.id)) = [u'] ∧
      u'.activeSessionId = some sid := by
  simp only [ensureAppUser] at h
  by_cases hrl : rl.ok = false
  · rw [if_pos hrl] at h
    exact absurd h (by simp)
  · rw [if_neg hrl] at h
    by_cases hlen : (db.users.filter (fun u => decide (u.authUserId = au.id))).length > 1
    · rw [if_pos hlen] at h
      exact absurd h (by simp)
    · rw [if_neg hlen] at h
      rcases hhd : (db.users.filter (fun u => decide (u.authUserId = au.id))).head? with _ | e
      · -- no existing user: account creation
        have hfil : db.users.filter (fun u => decide (u.authUserId = au.id)) = [] :=
          List.head?_eq_none_iff.mp hhd
        rw [hhd] at h
        simp only at h
        rcases hstep : ensureNewUser db au (crowdfundingActiveOf db) args sid now with
          e' | ⟨appUser, dbN⟩
        · rw [hstep] at h
          exact absurd h (by simp)
        · rw [hstep] at h
          simp only [Except.ok.injEq, Prod.mk.injEq] at h
          obtain ⟨hres, hdb⟩ := h
          obtain ⟨huser, hdbN⟩ :=
            ensureNewUser_ok_inv db au (crowdfundingActiveOf db) args sid now appUser dbN hWF
              hstep
          constructor
          · rw [← hres, huser]
            simp
          · refine ⟨appUser, ?_, by rw [huser]⟩
            rw [← hdb, hdbN]
            simp only [List.filter_append, hfil, List.nil_append]
            rw [List.filter_cons_of_pos]
            · rfl
            · rw [huser]
              simp
      · -- existing user: session fields patched
        have hfil : db.users.filter (fun u => decide (u.authUserId = au.id)) = [e] :=
          length_le_one_head_eq hlen hhd
        rw [hhd] at h
        simp only at h
        have hpid : ∀ x : AppUser,
            (fun u : AppUser => decide (u.id = e.id))
              ((fun u : AppUser => if u.id = e.id then
                  { u with activeSessionId := some sid, sessionStartedAt := some now }
                else u) x) =
              (fun u : AppUser => decide (u.id = e.id)) x := by
          intro x
          by_cases hx : x.id = e.id <;> simp [hx]
        have hpauth : ∀ x : AppUser,
            (fun u : AppUser => decide (u.authUserId = au.id))
              ((fun u : AppUser => if u.id = e.id then
                  { u with activeSessionId := some sid, sessionStartedAt := some now }
                else u) x) =
              (fun u : AppUser => decide (u.authUserId = au.id)) x := by
          intro x
          by_cases hx : x.id = e.id <;> simp [hx]
        rcases hfind : (db.users.map (fun u =>
            if u.id = e.id then
              { u with activeSessionId := some sid, sessionStartedAt := some now }
            else u)).find? (fun u => decide (u.id = e.id)) with _ | updated
        · rw [hfind] at h
          exact absurd h (by simp)
        · rw [hfind] at h
          simp only [Except.ok.injEq, Prod.mk.injEq] at h
          obtain ⟨hres, hdb⟩ := h
          have hupd : updated.activeSessionId = some sid := by
            rw [find_map_pred_preserving _ _ _ hpid] at hfind
            rcases Option.map_eq_some'.mp hfind with ⟨x, hx, hfx⟩
            have hpx := List.find?_some hx
            simp only [decide_eq_true_eq] at hpx
            rw [← hfx, if_pos hpx]
          constructor
          · rw [← hres]
            simp [hupd]
          · refine ⟨{ e with activeSessionId := some sid, sessionStartedAt := some now },
              ?_, rfl⟩
            rw [← hdb]
            simp only
            rw [filter_map_pred_preserving _ _ _ hpauth, hfil, List.map_cons, List.map_nil,
              if_pos rfl]

/-! ## Claim C1 — establish then validate; old tokens are superseded -/

/-- C1: whenever `ensureAppUser` succeeds, a `validateSession` for the
same identity with the returned token reports valid, and a
`validateSession` with any other well-formed token — in particular any
token returned by an earlier `ensureAppUser` for this identity — reports
invalid with reason `session_invalidated`. The store is assumed
well-formed (fresh-id allocator ahead of stored ids), the fresh token is
assumed to have the `crypto.randomUUID()` shape, and the old token is a
distinct well-formed token. -/
theorem claim1_establish_then_validate (db : Db) (au : AuthUser) (rl : RateLimitResult)
    (args : EnsureArgs) (sid tOld : String) (now : Nat) (res : EnsureOk) (db' : Db)
    (hWF : ∀ u ∈ db.users, u.id < db.nextUserId)
    (hok : ensureAppUser db (some au) rl args sid now = .ok (res, db'))
    (hsid : sessionIdTest sid = true)
    (hold : sessionIdTest tOld = true)
    (hne : tOld ≠ sid) :
    validateSession db' (.user au) res.sessionId = .ok .valid ∧
    validateSession db' (.user au) tOld = .ok (.invalid .session_invalidated) := by
  obtain ⟨hres, u', hu', hsess⟩ :=
    ensureAppUser_ok_shape db au rl args sid now res db' hWF hok
  constructor
  · rw [hres]
    simp only [validateSession, hsid, Bool.true_eq_false, if_false, hu', hsess]
    simp
  · simp only [validateSession, hold, Bool.true_eq_false, if_false, hu', hsess]
    rw [if_neg (fun hcontra => hne (Option.some_inj.mp hcontra).symm)]

/-- The store state after the C1 witness run: one user holding the fresh
token. -/
def exDb1 : Db :=
  { users := [{ id := 0, authUserId := "auth-1", email := "alice@example.com",
                name := some "Alice", createdAt := 100, activeSessionId := some exUuidA,
                sessionStartedAt := some 100, crowdfundingBackerId := none,
                lastSeenAlertAt := none }],
    backers := [], appState := [], admins := [], nextUserId := 1 }

/-- The result of the C1 witness run. -/
def exRes1 : EnsureOk :=
  { userId := 0, email := "alice@example.com", name := some "Alice", isAdmin := false,
    sessionId := exUuidA }

/-- Witness for C1: a concrete sign-in on an empty store; the fresh token
validates, the other token is superseded. -/
theorem claim1_witness :
    validateSession exDb1 (.user exAu) exRes1.sessionId = .ok .valid ∧
    validateSession exDb1 (.user exAu) exUuidB = .ok (.invalid .session_invalidated) :=
  claim1_establish_then_validate exDbEmpty exAu exRlOk ⟨none, none⟩ exUuidA exUuidB 100
    exRes1 exDb1 (fun u hu => absurd hu (List.not_mem_nil u)) (by rfl) (by decide) (by decide)
    (by decide)

/-! ## Claim C9 — repeated sign-in touches only the session fields -/

/-- C9: when the identity already has a user row and `ensureAppUser`
succeeds, every user row in the store afterwards agrees with its prior
version on every field except the active session token and the
session-start timestamp, and the backer, app-state and admin tables and
the id allocator are untouched. -/
theorem claim9_existing_user_frame (db : Db) (au : AuthUser) (rl : RateLimitResult)
    (args : EnsureArgs) (sid : String) (now : Nat) (res : EnsureOk) (db' : Db)
    (hex : db.users.filter (fun u => decide (u.authUserId = au.id)) ≠ [])
    (h : ensureAppUser db (some au) rl args sid now = .ok (res, db')) :
    List.Forall₂ (fun u u' : AppUser =>
      u'.id = u.id ∧ u'.authUserId = u.authUserId ∧ u'.email = u.email ∧
      u'.name = u.name ∧ u'.createdAt = u.createdAt ∧
      u'.crowdfundingBackerId = u.crowdfundingBackerId ∧
      u'.lastSeenAlertAt = u.lastSeenAlertAt) db.users db'.users ∧
    db'.backers = db.backers ∧ db'.appState = db.appState ∧ db'.admins = db.admins ∧
    db'.nextUserId = db.nextUserId := by
  simp only [ensureAppUser] at h
  by_cases hrl : rl.ok = false
  · rw [if_pos hrl] at h
    exact absurd h (by simp)
  · rw [if_neg hrl] at h
    by_cases hlen : (db.users.filter (fun u => decide (u.authUserId = au.id))).length > 1
    · rw [if_pos hlen] at h
      exact absurd h (by simp)
    · rw [if_neg hlen] at h
      rcases hhd : (db.users.filter (fun u => decide (u.authUserId = au.id))).head? with _ | e
      · exact absurd (List.head?_eq_none_iff.mp hhd) hex
      · rw [hhd] at h
        simp only at h
        rcases hfind : (db.users.map (fun u =>
            if u.id = e.id then
              { u with activeSessionId := some sid, sessionStartedAt := some now }
            else u)).find? (fun u => decide (u.id = e.id)) with _ | updated
        · rw [hfind] at h
          exact absurd h (by simp)
        · rw [hfind] at h
          simp only [Except.ok.injEq, Prod.mk.injEq] at h
          obtain ⟨hres, hdb⟩ := h
          rw [← hdb]
          refine ⟨?_, rfl, rfl, rfl, rfl⟩
          simp only
          rw [List.forall₂_map_right_iff]
          rw [List.forall₂_same]
          intro x _
          by_cases hx : x.id = e.id <;> simp [hx]

/-- The store state after the C9 witness run: the single user row with
only the session fields replaced. -/
def exDb2 : Db :=
  { users := [{ id := 0, authUserId := "auth-1", email := "alice@example.com",
                name := some "Alice", createdAt := 100, activeSessionId := some exUuidB,
                sessionStartedAt := some 200, crowdfundingBackerId := none,
                lastSeenAlertAt := none }],
    backers := [], appState := [], admins := [], nextUserId := 1 }

/-- The result of the C9 witness run. -/
def exRes2 : EnsureOk :=
  { userId := 0, email := "alice@example.com", name := some "Alice", isAdmin := false,
    sessionId := exUuidB }

/-- Witness for C9: a repeated sign-in against `exDb1` replaces only the
session fields. -/
theorem claim9_witness :
    List.Forall₂ (fun u u' : AppUser =>
      u'.id = u.id ∧ u'.authUserId = u.authUserId ∧ u'.email = u.email ∧
      u'.name = u.name ∧ u'.createdAt = u.createdAt ∧
      u'.crowdfundingBackerId = u.crowdfundingBackerId ∧
      u'.lastSeenAlertAt = u.lastSeenAlertAt) exDb1.users exDb2.users ∧
    exDb2.backers = exDb1.backers ∧ exDb2.appState = exDb1.appState ∧
    exDb2.admins = exDb1.admins ∧ exDb2.nextUserId = exDb1.nextUserId :=
  claim9_existing_user_frame exDb1 exAu exRlOk ⟨none, none⟩ exUuidB 200 exRes2 exDb2
    (by decide) (by rfl)

/-! ## Computation lemmas for the backer-validation block -/

/-- Supplying a proof id without a claim token is rejected. -/
theorem validateBackerArgs_no_token (db : Db) (bid : Nat) (now : Nat) :
    validateBackerArgs db ⟨some bid, none⟩ now =
      .error "Backer verification token is required" := rfl

/-- An unknown proof id is rejected. -/
theorem validateBackerArgs_not_found (db : Db) (bid : Nat) (tok : String) (now : Nat)
    (h : findBacker db bid = none) :
    validateBackerArgs db ⟨some bid, some tok⟩ now = .error "Invalid backer ID" := by
  simp [validateBackerArgs, h]

/-- A consumed proof is rejected as already used. -/
theorem validateBackerArgs_used (db : Db) (bid : Nat) (tok : String) (now : Nat) (b : Backer)
    (hb : findBacker db bid = some b) (hused : b.usedByUserId.isSome = true) :
    validateBackerArgs db ⟨some bid, some tok⟩ now =
      .error "This backer code has already been used" := by
  simp [validateBackerArgs, hb, hused]

/-- A proof with no pending claim token or no pending expiry is rejected
as expired. -/
theorem validateBackerArgs_stale (db : Db) (bid : Nat) (tok : String) (now : Nat) (b : Backer)
    (hb : findBacker db bid = some b) (hunused : b.usedByUserId = none)
    (hstale : b.pendingClaimToken = none ∨ b.pendingClaimExpiresAt = none) :
    validateBackerArgs db ⟨some bid, some tok⟩ now =
      .error "Backer verification expired. Please verify again." := by
  rcases hstale with hs | hs
  · simp [validateBackerArgs, hb, hunused, hs]
  · rcases hp : b.pendingClaimToken with _ | ptok
    · simp [validateBackerArgs, hb, hunused, hp, hs]
    · simp [validateBackerArgs, hb, hunused, hp, hs]

/-- A claim token different from the stored one is rejected as a
mismatch. -/
theorem validateBackerArgs_mismatch (db : Db) (bid : Nat) (tok ptok : String) (now pexp : Nat)
    (b : Backer) (hb : findBacker db bid = some b) (hunused : b.usedByUserId = none)
    (hptok : b.pendingClaimToken = some ptok) (hpexp : b.pendingClaimExpiresAt = some pexp)
    (hne : ptok ≠ tok) :
    validateBackerArgs db ⟨some bid, some tok⟩ now =
      .error "Backer verification does not match. Please verify again." := by
  simp [validateBackerArgs, hb, hunused, hptok, hpexp, hne]

/-- A matching but expired claim token is rejected as expired. -/
theorem validateBackerArgs_expired (db : Db) (bid : Nat) (tok : String) (now pexp : Nat)
    (b : Backer) (hb : findBacker db bid = some b) (hunused : b.usedByUserId = none)
    (hptok : b.pendingClaimToken = some tok) (hpexp : b.pendingClaimExpiresAt = some pexp)
    (hlt : pexp < now) :
    validateBackerArgs db ⟨some bid, some tok⟩ now =
      .error "Backer verification expired. Please verify again." := by
  simp [validateBackerArgs, hb, hunused, hptok, hpexp, hlt]

/-- An unconsumed proof with a matching, unexpired claim token passes
validation. -/
theorem validateBackerArgs_ok (db : Db) (bid : Nat) (tok : String) (now pexp : Nat)
    (b : Backer) (hb : findBacker db bid = some b) (hunused : b.usedByUserId = none)
    (hptok : b.pendingClaimToken = some tok) (hpexp : b.pendingClaimExpiresAt = some pexp)
    (hnlt : ¬ pexp < now) :
    validateBackerArgs db ⟨some bid, some tok⟩ now = .ok () := by
  simp [validateBackerArgs, hb, hunused, hptok, hpexp, hnlt]

/-- Consuming a proof patches exactly the found record. -/
theorem find_consumeBacker (backers : List Backer) (bid uid now : Nat) (b : Backer)
    (h : backers.find? (fun x => decide (x.id = bid)) = some b) :
    (consumeBacker backers bid uid now).find? (fun x => decide (x.id = bid)) =
      some { b with usedByUserId := some uid, usedAt := some now,
                    pendingClaimToken := none, pendingClaimExpiresAt := none } := by
  have hp : ∀ x : Backer,
      (fun y : Backer => decide (y.id = bid))
        ((fun y : Backer => if y.id = bid then
            { y with usedByUserId := some uid, usedAt := some now,
                     pendingClaimToken := none, pendingClaimExpiresAt := none }
          else y) x) =
        (fun y : Backer => decide (y.id = bid)) x := by
    intro x
    by_cases hx : x.id = bid <;> simp [hx]
  have hbid : b.id = bid := by
    have := List.find?_some h
    simpa using this
  rw [consumeBacker, find_map_pred_preserving _ _ _ hp, h, Option.map_some', if_pos hbid]

/-! ## Claim C2 — the admission gate with gating on -/

/-- C2: with gating on, the rate limit passed and no user row for the
identity: account creation with no supplied proof is rejected; with a
proof id but no claim token, an unknown proof, a consumed proof, a proof
with no pending claim, a mismatched claim token or an expired claim
token, it is rejected with the corresponding specific message; and with a
fresh matching unexpired claim it succeeds, marks the proof consumed by
the created user, and a second account creation with the same proof and
token then fails as already used. -/
theorem claim2_admission_gate (db : Db) (au : AuthUser) (rl : RateLimitResult)
    (sid : String) (now : Nat)
    (hWF : ∀ u ∈ db.users, u.id < db.nextUserId)
    (hrl : rl.ok = true)
    (hactive : crowdfundingActiveOf db = true)
    (hnew : db.users.filter (fun u => decide (u.authUserId = au.id)) = []) :
    (∀ tokOpt, ensureAppUser db (some au) rl ⟨none, tokOpt⟩ sid now =
        .error "Backer verification is required during crowdfunding") ∧
    (∀ bid, ensureAppUser db (some au) rl ⟨some bid, none⟩ sid now =
        .error "Backer verification token is required") ∧
    (∀ bid tok, findBacker db bid = none →
      ensureAppUser db (some au) rl ⟨some bid, some tok⟩ sid now =
        .error "Invalid backer ID") ∧
    (∀ bid tok b uid, findBacker db bid = some b → b.usedByUserId = some uid →
      ensureAppUser db (some au) rl ⟨some bid, some tok⟩ sid now =
        .error "This backer code has already been used") ∧
    (∀ bid tok b, findBacker db bid = some b → b.usedByUserId = none →
      (b.pendingClaimToken = none ∨ b.pendingClaimExpiresAt = none) →
      ensureAppUser db (some au) rl ⟨some bid, some tok⟩ sid now =
        .error "Backer verification expired. Please verify again.") ∧
    (∀ bid tok b ptok pexp, findBacker db bid = some b → b.usedByUserId = none →
      b.pendingClaimToken = some ptok → b.pendingClaimExpiresAt = some pexp → ptok ≠ tok →
      ensureAppUser db (some au) rl ⟨some bid, some tok⟩ sid now =
        .error "Backer verification does not match. Please verify again.") ∧
    (∀ bid tok b pexp, findBacker db bid = some b → b.usedByUserId = none →
      b.pendingClaimToken = some tok → b.pendingClaimExpiresAt = some pexp → pexp < now →
      ensureAppUser db (some au) rl ⟨some bid, some tok⟩ sid now =
        .error "Backer verification expired. Please verify again.") ∧
    (∀ bid tok b pexp, findBacker db bid = some b → b.usedByUserId = none →
      b.pendingClaimToken = some tok → b.pendingClaimExpiresAt = some pexp → ¬ pexp < now →
      db.users.filter (fun u => decide (u.email = au.email)) = [] →
      ∃ res db2, ensureAppUser db (some au) rl ⟨some bid, some tok⟩ sid now = .ok (res, db2) ∧
        res.userId = db.nextUserId ∧
        findBacker db2 bid =
          some { b with usedByUserId := some res.userId, usedAt := some now,
                        pendingClaimToken := none, pendingClaimExpiresAt := none } ∧
        (∀ au2 rl2 sid2 now2, rl2.ok = true → au2.id ≠ au.id →
          db.users.filter (fun u => decide (u.authUserId = au2.id)) = [] →
          ensureAppUser db2 (some au2) rl2 ⟨some bid, some tok⟩ sid2 now2 =
            .error "This backer code has already been used")) := by
  refine ⟨?_, ?_, ?_, ?_, ?_, ?_, ?_, ?_⟩
  · intro tokOpt
    rw [ensureAppUser_new_branch db au rl ⟨none, tokOpt⟩ sid now hrl hnew, hactive,
      ensureNewUser_gate_error db au ⟨none, tokOpt⟩ sid now rfl]
  · intro bid
    rw [ensureAppUser_new_branch db au rl ⟨some bid, none⟩ sid now hrl hnew, hactive,
      ensureNewUser_validate_error db au true ⟨some bid, none⟩ sid now _ (by simp)
        (validateBackerArgs_no_token db bid now)]
  · intro bid tok hfindb
    rw [ensureAppUser_new_branch db au rl ⟨some bid, some tok⟩ sid now hrl hnew, hactive,
      ensureNewUser_validate_error db au true ⟨some bid, some tok⟩ sid now _ (by simp)
        (validateBackerArgs_not_found db bid tok now hfindb)]
  · intro bid tok b uid hfindb hused
    rw [ensureAppUser_new_branch db au rl ⟨some bid, some tok⟩ sid now hrl hnew, hactive,
      ensureNewUser_validate_error db au true ⟨some bid, some tok⟩ sid now _ (by simp)
        (validateBackerArgs_used db bid tok now b hfindb (by rw [hused]; rfl))]
  · intro bid tok b hfindb hunused hstale
    rw [ensureAppUser_new_branch db au rl ⟨some bid, some tok⟩ sid now hrl hnew, hactive,
      ensureNewUser_validate_error db au true ⟨some bid, some tok⟩ sid now _ (by simp)
        (validateBackerArgs_stale db bid tok now b hfindb hunused hstale)]
  · intro bid tok b ptok pexp hfindb hunused hptok hpexp hne
    rw [ensureAppUser_new_branch db au rl ⟨some bid, some tok⟩ sid now hrl hnew, hactive,
      ensureNewUser_validate_error db au true ⟨some bid, some tok⟩ sid now _ (by simp)
        (validateBackerArgs_mismatch db bid tok ptok now pexp b hfindb hunused hptok hpexp
          hne)]
  · intro bid tok b pexp hfindb hunused hptok hpexp hlt
    rw [ensureAppUser_new_branch db au rl ⟨some bid, some tok⟩ sid now hrl hnew, hactive,
      ensureNewUser_validate_error db au true ⟨some bid, some tok⟩ sid now _ (by simp)
        (validateBackerArgs_expired db bid tok now pexp b hfindb hunused hptok hpexp hlt)]
  · intro bid tok b pexp hfindb hunused hptok hpexp hnlt hemail
    have hval := validateBackerArgs_ok db bid tok now pexp b hfindb hunused hptok hpexp hnlt
    rw [ensureAppUser_new_branch db au rl ⟨some bid, some tok⟩ sid now hrl hnew, hactive,
      ensureNewUser_insert db au true ⟨some bid, some tok⟩ sid now (by simp) hval hemail,
      insertNewUser_eq db au ⟨some bid, some tok⟩ sid now hWF]
    refine ⟨_, _, rfl, rfl, ?_, ?_⟩
    · simp only [findBacker]
      rw [find_consumeBacker db.backers bid db.nextUserId now b
        (by simpa [findBacker] using hfindb)]
    · intro au2 rl2 sid2 now2 hrl2 hneid hf2
      have hnew2 : (({ db with
          users := db.users ++
            [{ id := db.nextUserId, authUserId := au.id, email := au.email,
               name := au.name, createdAt := now, activeSessionId := some sid,
               sessionStartedAt := some now, crowdfundingBackerId := some bid,
               lastSeenAlertAt := none }],
          backers := consumeBacker db.backers bid db.nextUserId now,
          nextUserId := db.nextUserId + 1 } : Db).users.filter
            (fun u => decide (u.authUserId = au2.id))) = [] := by
        simp only [List.filter_append, hf2, List.nil_append]
        rw [List.filter_cons_of_neg, List.filter_nil]
        simp only [decide_eq_true_eq]
        exact fun hcontra => hneid hcontra.symm
      rw [ensureAppUser_new_branch _ au2 rl2 ⟨some bid, some tok⟩ sid2 now2 hrl2 hnew2,
        ensureNewUser_validate_error _ au2 _ ⟨some bid, some tok⟩ sid2 now2 _ (by simp)
          (validateBackerArgs_used _ bid tok now2
            { b with usedByUserId := some db.nextUserId, usedAt := some now,
                     pendingClaimToken := none, pendingClaimExpiresAt := none }
            (by
              simp only [findBacker]
              exact find_consumeBacker db.backers bid db.nextUserId now b
                (by simpa [findBacker] using hfindb))
            rfl)]

/-- Witness for C2 at the concrete gated store: the no-proof rejection,
and the full success / consumption / reuse-rejection scenario for the
fresh proof `exBacker` with its claim token. -/
theorem claim2_witness :
    ensureAppUser exDbGated (some exAu) exRlOk ⟨none, none⟩ exUuidA 100 =
      .error "Backer verification is required during crowdfunding" ∧
    ∃ res db2,
      ensureAppUser exDbGated (some exAu) exRlOk ⟨some 7, some "tok-1"⟩ exUuidA 100 =
        .ok (res, db2) ∧
      res.userId = exDbGated.nextUserId ∧
      findBacker db2 7 =
        some { exBacker with usedByUserId := some res.userId, usedAt := some 100,
                             pendingClaimToken := none, pendingClaimExpiresAt := none } ∧
      (∀ au2 rl2 sid2 now2, rl2.ok = true → au2.id ≠ exAu.id →
        exDbGated.users.filter (fun u => decide (u.authUserId = au2.id)) = [] →
        ensureAppUser db2 (some au2) rl2 ⟨some 7, some "tok-1"⟩ sid2 now2 =
          .error "This backer code has already been used") := by
  have h := claim2_admission_gate exDbGated exAu exRlOk exUuidA 100
    (fun u hu => absurd hu (List.not_mem_nil u)) rfl rfl rfl
  exact ⟨h.1 none,
    h.2.2.2.2.2.2.2 7 "tok-1" exBacker 600000 rfl rfl rfl rfl (by decide) rfl⟩

/-! ## Claim C10 — proof validation and consumption even with gating off -/

/-- C10: with gating off, the rate limit passed and no user row for the
identity, an account creation that nevertheless supplies a proof id still
validates the proof fully — a missing claim token, an unknown proof, a
consumed proof, a proof with no pending claim, a mismatched claim token
and an expired claim token each reject the call with the corresponding
message — and on success the proof is marked consumed by the newly
created user. -/
theorem claim10_proof_validated_even_ungated (db : Db) (au : AuthUser)
    (rl : RateLimitResult) (sid : String) (now : Nat)
    (hWF : ∀ u ∈ db.users, u.id < db.nextUserId)
    (hrl : rl.ok = true)
    (hinactive : crowdfundingActiveOf db = false)
    (hnew : db.users.filter (fun u => decide (u.authUserId = au.id)) = []) :
    (∀ bid, ensureAppUser db (some au) rl ⟨some bid, none⟩ sid now =
        .error "Backer verification token is required") ∧
    (∀ bid tok, findBacker db bid = none →
      ensureAppUser db (some au) rl ⟨some bid, some tok⟩ sid now =
        .error "Invalid backer ID") ∧
    (∀ bid tok b uid, findBacker db bid = some b → b.usedByUserId = some uid →
      ensureAppUser db (some au) rl ⟨some bid, some tok⟩ sid now =
        .error "This backer code has already been used") ∧
    (∀ bid tok b, findBacker db bid = some b → b.usedByUserId = none →
      (b.pendingClaimToken = none ∨ b.pendingClaimExpiresAt = none) →
      ensureAppUser db (some au) rl ⟨some bid, some tok⟩ sid now =
        .error "Backer verification expired. Please verify again.") ∧
    (∀ bid tok b ptok pexp, findBacker db bid = some b → b.usedByUserId = none →
      b.pendingClaimToken = some ptok → b.pendingClaimExpiresAt = some pexp → ptok ≠ tok →
      ensureAppUser db (some au) rl ⟨some bid, some tok⟩ sid now =
        .error "Backer verification does not match. Please verify again.") ∧
    (∀ bid tok b pexp, findBacker db bid = some b → b.usedByUserId = none →
      b.pendingClaimToken = some tok → b.pendingClaimExpiresAt = some pexp → pexp < now →
      ensureAppUser db (some au) rl ⟨some bid, some tok⟩ sid now =
        .error "Backer verification expired. Please verify again.") ∧
    (∀ bid tok b pexp, findBacker db bid = some b → b.usedByUserId = none →
      b.pendingClaimToken = some tok → b.pendingClaimExpiresAt = some pexp → ¬ pexp < now →
      db.users.filter (fun u => decide (u.email = au.email)) = [] →
      ∃ res db2, ensureAppUser db (some au) rl ⟨some bid, some tok⟩ sid now = .ok (res, db2) ∧
        res.userId = db.nextUserId ∧
        findBacker db2 bid =
          some { b with usedByUserId := some res.userId, usedAt := some now,
                        pendingClaimToken := none, pendingClaimExpiresAt := none }) := by
  refine ⟨?_, ?_, ?_, ?_, ?_, ?_, ?_⟩
  · intro bid
    rw [ensureAppUser_new_branch db au rl ⟨some bid, none⟩ sid now hrl hnew, hinactive,
      ensureNewUser_validate_error db au false ⟨some bid, none⟩ sid now _ (by simp)
        (validateBackerArgs_no_token db bid now)]
  · intro bid tok hfindb
    rw [ensureAppUser_new_branch db au rl ⟨some bid, some tok⟩ sid now hrl hnew, hinactive,
      ensureNewUser_validate_error db au false ⟨some bid, some tok⟩ sid now _ (by simp)
        (validateBackerArgs_not_found db bid tok now hfindb)]
  · intro bid tok b uid hfindb hused
    rw [ensureAppUser_new_branch db au rl ⟨some bid, some tok⟩ sid now hrl hnew, hinactive,
      ensureNewUser_validate_error db au false ⟨some bid, some tok⟩ sid now _ (by simp)
        (validateBackerArgs_used db bid tok now b hfindb (by rw [hused]; rfl))]
  · intro bid tok b hfindb hunused hstale
    rw [ensureAppUser_new_branch db au rl ⟨some bid, some tok⟩ sid now hrl hnew, hinactive,
      ensureNewUser_validate_error db au false ⟨some bid, some tok⟩ sid now _ (by simp)
        (validateBackerArgs_stale db bid tok now b hfindb hunused hstale)]
  · intro bid tok b ptok pexp hfindb hunused hptok hpexp hne
    rw [ensureAppUser_new_branch db au rl ⟨some bid, some tok⟩ sid now hrl hnew, hinactive,
      ensureNewUser_validate_error db au false ⟨some bid, some tok⟩ sid now _ (by simp)
        (validateBackerArgs_mismatch db bid tok ptok now pexp b hfindb hunused hptok hpexp
          hne)]
  · intro bid tok b pexp hfindb hunused hptok hpexp hlt
    rw [ensureAppUser_new_branch db au rl ⟨some bid, some tok⟩ sid now hrl hnew, hinactive,
      ensureNewUser_validate_error db au false ⟨some bid, some tok⟩ sid now _ (by simp)
        (validateBackerArgs_expired db bid tok now pexp b hfindb hunused hptok hpexp hlt)]
  · intro bid tok b pexp hfindb hunused hptok hpexp hnlt hemail
    have hval := validateBackerArgs_ok db bid tok now pexp b hfindb hunused hptok hpexp hnlt
    rw [ensureAppUser_new_branch db au rl ⟨some bid, some tok⟩ sid now hrl hnew, hinactive,
      ensureNewUser_insert db au false ⟨some bid, some tok⟩ sid now (by simp) hval hemail,
      insertNewUser_eq db au ⟨some bid, some tok⟩ sid now hWF]
    refine ⟨_, _, rfl, rfl, ?_⟩
    simp only [findBacker]
    rw [find_consumeBacker db.backers bid db.nextUserId now b
      (by simpa [findBacker] using hfindb)]

/-- Witness for C10 at the concrete ungated store: a consumed proof is
rejected, and a fresh proof still succeeds and is consumed by the created
user. -/
theorem claim10_witness :
    ensureAppUser exDbOpen (some exAu) exRlOk ⟨some 8, some "tok-1"⟩ exUuidA 100 =
      .error "This backer code has already been used" ∧
    ∃ res db2,
      ensureAppUser exDbOpen (some exAu) exRlOk ⟨some 7, some "tok-1"⟩ exUuidA 100 =
        .ok (res, db2) ∧
      res.userId = exDbOpen.nextUserId ∧
      findBacker db2 7 =
        some { exBacker with usedByUserId := some res.userId, usedAt := some 100,
                             pendingClaimToken := none, pendingClaimExpiresAt := none } := by
  have h := claim10_proof_validated_even_ungated exDbOpen exAu exRlOk exUuidA 100
    (fun u hu => absurd hu (List.not_mem_nil u)) rfl rfl rfl
  exact ⟨h.2.2.1 8 "tok-1" exBackerUsed 3 rfl rfl,
    h.2.2.2.2.2.2 7 "tok-1" exBacker 600000 rfl rfl rfl rfl (by decide) rfl⟩

end VP
